import Mathlib

/-!
Shallow embedding of tgulacsi/bleve-indexer (main.go) in Lean 4.

The program is a small HTTP gateway that ingests documents: it supervises an
external Tika worker process, streams each document to the worker twice (once
to the /meta endpoint, once to the /tika endpoint, buffering the bytes in
memory in between), parses the worker's line-oriented metadata output, and
indexes the result in a Bleve index.

The embedding models byte streams as `List Char`, Go maps as association
lists, channels and subprocess events as explicit oracle records, and the
HTTP transport as an oracle describing the worker's behavior.  Every
definition is translated from the source file; the source line numbers are
given in the doc comments.
-/

namespace BleveIndexer

/-- Embedding of Go's `time.Time` restricted to the fields observable through
`time.Parse(time.RFC3339, ...)`: calendar fields, nanoseconds and the zone
offset in minutes. -/
structure GoTime where
  year : Nat
  month : Nat
  day : Nat
  hour : Nat
  minute : Nat
  second : Nat
  nsec : Nat
  offMin : Int
deriving Repr, DecidableEq

/-- The zero value of Go's `time.Time`: January 1, year 1, 00:00:00 UTC.
`time.Parse` returns this value when parsing fails. -/
def timeZero : GoTime :=
  { year := 1, month := 1, day := 1, hour := 0, minute := 0, second := 0,
    nsec := 0, offMin := 0 }

/-- Decimal value of a digit list (most significant first). -/
def digitsToNat (cs : List Char) : Nat :=
  cs.foldl (fun n c => n * 10 + (c.toNat - '0'.toNat)) 0

/-- Read exactly `n` decimal digits from the front of the input. -/
def parseFixedDigits (n : Nat) (cs : List Char) : Option (Nat × List Char) :=
  let ds := cs.take n
  if ds.length = n ∧ ds.all Char.isDigit then some (digitsToNat ds, cs.drop n)
  else none

/-- Require a specific literal character at the front of the input. -/
def parseLit (c : Char) : List Char → Option (List Char)
  | x :: rest => if x = c then some rest else none
  | [] => none

/-- Optional fractional second: a dot followed by at least one digit, as
accepted by Go's `time.Parse` even when the layout has no fraction.  Returns
the nanosecond value and the remaining input. -/
def parseFracSecond : List Char → Nat × List Char
  | '.' :: rest =>
    if (rest.head?.map Char.isDigit).getD false then
      let ds := rest.takeWhile Char.isDigit
      (digitsToNat (ds.take 9) * 10 ^ (9 - min ds.length 9), rest.dropWhile Char.isDigit)
    else (0, '.' :: rest)
  | cs => (0, cs)

/-- Time-zone suffix accepted by the `Z07:00` layout element: a literal `Z`,
or a sign followed by `hh:mm`.  Returns the offset in minutes. -/
def parseZone : List Char → Option (Int × List Char)
  | 'Z' :: rest => some (0, rest)
  | c :: rest =>
    if c = '+' ∨ c = '-' then do
      let (hh, rest) ← parseFixedDigits 2 rest
      let rest ← parseLit ':' rest
      let (mm, rest) ← parseFixedDigits 2 rest
      let off : Int := (hh * 60 + mm : Nat)
      some (if c = '-' then -off else off, rest)
    else none
  | [] => none

/-- Number of days in the given month, as validated by Go's `time.Parse`. -/
def daysInMonth (y m : Nat) : Nat :=
  if m = 2 then
    if (y % 4 = 0 ∧ y % 100 ≠ 0) ∨ y % 400 = 0 then 29 else 28
  else if m = 4 ∨ m = 6 ∨ m = 9 ∨ m = 11 then 30 else 31

/-- Embedding of `time.Parse(time.RFC3339, s)` (layout
`2006-01-02T15:04:05Z07:00`): fixed-width date and clock fields, an optional
fractional second, a mandatory zone suffix, no trailing input, and the range
checks Go performs (month, day-of-month, hour, minute, second).  `none` is a
parse failure. -/
def parseRFC3339 (s : String) : Option GoTime := do
  let cs := s.data
  let (y, cs) ← parseFixedDigits 4 cs
  let cs ← parseLit '-' cs
  let (mo, cs) ← parseFixedDigits 2 cs
  let cs ← parseLit '-' cs
  let (d, cs) ← parseFixedDigits 2 cs
  let cs ← parseLit 'T' cs
  let (h, cs) ← parseFixedDigits 2 cs
  let cs ← parseLit ':' cs
  let (mi, cs) ← parseFixedDigits 2 cs
  let cs ← parseLit ':' cs
  let (se, cs) ← parseFixedDigits 2 cs
  let (ns, cs) := parseFracSecond cs
  let (off, cs) ← parseZone cs
  if cs = [] ∧ 1 ≤ mo ∧ mo ≤ 12 ∧ 1 ≤ d ∧ d ≤ daysInMonth y mo ∧
      h ≤ 23 ∧ mi ≤ 59 ∧ se ≤ 59 then
    some { year := y, month := mo, day := d, hour := h, minute := mi,
           second := se, nsec := ns, offMin := off }
  else none

/-- Embedding of the `metadata` struct (main.go lines 281-287).  The Go map
`Data map[string]string` is modelled as an association list with
overwrite-on-insert semantics. -/
structure Metadata where
  Author : String := ""
  ContentType : String := ""
  Title : String := ""
  Data : List (String × String) := []
  Created : GoTime := timeZero
deriving Repr, DecidableEq

/-- Map update `m[k] = v` on the association-list model of a Go map:
overwrite the existing entry for `k` or append a new one. -/
def assocSet (l : List (String × String)) (k v : String) : List (String × String) :=
  if l.any (fun p => p.1 = k) then
    l.map (fun p => if p.1 = k then (k, v) else p)
  else l ++ [(k, v)]

/-- Embedding of `bytes.TrimRight(s, cut)`: drop trailing characters that
occur in the cutset. -/
def trimRightSet (s cut : List Char) : List Char :=
  (s.reverse.dropWhile (fun c => c ∈ cut)).reverse

/-- Embedding of `bytes.TrimLeft(s, cut)`: drop leading characters that occur
in the cutset. -/
def trimLeftSet (s cut : List Char) : List Char :=
  s.dropWhile (fun c => c ∈ cut)

/-- Index of the first occurrence of the three-byte separator `","` (quote,
comma, quote), as computed by `bytes.Index(line, []byte("\x22,\x22"))`. -/
def sepIndex : List Char → Option Nat
  | '"' :: ',' :: '"' :: _ => some 0
  | _ :: rest => (sepIndex rest).map (fun i => i + 1)
  | [] => none

/-- Key/value extraction for one scanned metadata line (main.go lines
322-329): trim trailing quote and newline characters, trim leading quotes,
locate the first `","` separator (`none`: the line is skipped with a
warning), take the key before it and the value after it with every embedded
quote character removed. -/
def lineKey (raw : List Char) : Option (String × String) :=
  let line := trimLeftSet (trimRightSet raw ['"', '\n']) ['"']
  match sepIndex line with
  | none => none
  | some i =>
      some ((line.take i).asString,
            ((line.drop (i + 3)).filter (fun c => c ≠ '"')).asString)

/-- The `switch key` body of `readMeta` (main.go lines 332-349).  On a
`Creation-Date` parse failure Go assigns the zero `time.Time` returned by
`time.Parse` to `meta.Created` and only logs a warning. -/
def applyKV (meta : Metadata) (k v : String) : Metadata :=
  if k = "Content-Type" then { meta with ContentType := v }
  else if k = "Author" then { meta with Author := v }
  else if k = "Creation-Date" then
    match parseRFC3339 v with
    | some t => { meta with Created := t }
    | none => { meta with Created := timeZero }
  else if k = "title" then { meta with Title := v }
  else { meta with Data := assocSet meta.Data k v }

/-- One iteration of the scanner loop of `readMeta` (main.go lines 321-350):
a line with no `","` separator is skipped (warning only), otherwise the
key/value pair is applied to the accumulated metadata. -/
def processLine (meta : Metadata) (raw : List Char) : Metadata :=
  match lineKey raw with
  | none => meta
  | some (k, v) => applyKV meta k v

/-- Embedding of `readMeta` (main.go lines 317-352).  The `bufio.Scanner` is
modelled at its interface: `lines` are the tokens the scanner delivers and
`scanErr` is what `scanner.Err()` reports afterwards (an I/O failure of the
underlying reader, or `none` when the scan succeeded).  The function folds
the loop body over the lines and returns `scanner.Err()` as its error. -/
def readMeta (lines : List (List Char)) (scanErr : Option String) :
    Metadata × Option String :=
  (lines.foldl processLine {}, scanErr)

/-- Predicate used to describe lines that set a (parsable) creation date:
the line parses to key `Creation-Date` with a value accepted by the
RFC3339 parser. -/
def setsCreatedTime (raw : List Char) : Bool :=
  match lineKey raw with
  | some (k, v) => k == "Creation-Date" && (parseRFC3339 v).isSome
  | none => false

/-- Go's `http.StatusBadRequest`. -/
def statusBadRequest : Nat := 400

/-- Oracle describing the worker's and the transport's behavior during one
`analyze` call.  `metaDoErr`/`tikaDoErr` are transport-level failures of
`c.httpClient.Do`; `metaConsumed` is how many bytes of the request body the
metadata-phase transport reads before the response completes (the rest is
drained afterwards by `io.Copy`); `metaLines`/`metaScanErr` describe the
/meta response body as seen by the scanner inside `readMeta`;
`drainErr` is an `io.Copy` failure; `tikaBody`/`tikaReadErr` describe
reading the /tika response body. -/
structure WorkerBehavior where
  metaDoErr : Option String := none
  metaConsumed : Nat := 0
  metaStatus : Nat := 200
  metaLines : List (List Char) := []
  metaScanErr : Option String := none
  drainErr : Option String := none
  tikaDoErr : Option String := none
  tikaStatus : Nat := 200
  tikaBody : List Char := []
  tikaReadErr : Option String := none
deriving Repr, DecidableEq

/-- Observable outcome of one `analyze` call: the returned
`(metadata, string, error)` triple, plus the content of the metadata-phase
request body (`metaSent`, the tee over the caller's stream) and the body of
the text-phase request if one was issued (`tikaSent`, the bytes of the
in-memory buffer). -/
structure AnalyzeResult where
  meta : Metadata
  text : String
  err : Option String
  metaSent : List Char
  tikaSent : Option (List Char)
deriving Repr, DecidableEq

/-- Embedding of `(config) analyze` (main.go lines 190-237).  The caller's
stream `r` is `input`; `r2 := io.TeeReader(r, &buf)` captures every byte read
from `r` into `buf`.  The metadata request is issued with body `r2`, of which
the transport consumes `metaConsumed` bytes; after the status check and
`readMeta`, `io.Copy(ioutil.Discard, r2)` drains the remaining bytes into
`buf`; the text request is then issued with `bytes.NewReader(buf.Bytes())`.
Note that at both `resp.StatusCode >= http.StatusBadRequest` checks (lines
210 and 228) the Go code returns the variable `err`, which is nil at those
points, and that the error returned by `readMeta` (line 213) is overwritten
by the `io.Copy` at line 216 without being checked. -/
def analyze (input : List Char) (w : WorkerBehavior) : AnalyzeResult :=
  match w.metaDoErr with
  | some e =>
      { meta := {}, text := "", err := some e, metaSent := input, tikaSent := none }
  | none =>
      let consumed := min w.metaConsumed input.length
      let buf := input.take consumed
      if statusBadRequest ≤ w.metaStatus then
        { meta := {}, text := "", err := none, metaSent := input, tikaSent := none }
      else
        let pair := readMeta w.metaLines w.metaScanErr
        let meta := pair.1
        match w.drainErr with
        | some e =>
            { meta := meta, text := "", err := some e, metaSent := input,
              tikaSent := none }
        | none =>
            let buf := buf ++ input.drop consumed
            match w.tikaDoErr with
            | some e =>
                { meta := meta, text := "", err := some e, metaSent := input,
                  tikaSent := some buf }
            | none =>
                if statusBadRequest ≤ w.tikaStatus then
                  { meta := meta, text := "", err := none, metaSent := input,
                    tikaSent := some buf }
                else
                  match w.tikaReadErr with
                  | some e =>
                      { meta := meta, text := "", err := some e,
                        metaSent := input, tikaSent := some buf }
                  | none =>
                      { meta := meta, text := w.tikaBody.asString, err := none,
                        metaSent := input, tikaSent := some buf }

/-- The supervisor state shared across requests (main.go lines 95-97):
`tikaCh` is the completion channel (`none`: no channel was ever created;
`some none`: channel exists and is empty; `some (some e)`: channel holds the
exit status `e` delivered by the watcher goroutine, itself optional since
`cmd.Wait` can return nil), and `tika` is the tracked process handle,
modelled by its pid. -/
structure SupState where
  tikaCh : Option (Option (Option String)) := none
  tika : Option Nat := none
deriving Repr, DecidableEq

/-- Oracle for one worker-launch attempt: the result of `cmd.Start`, the pid
of the started process, and whether an exit status is delivered to the
channel within the 100 ms grace period (and which). -/
structure SpawnOutcome where
  startErr : Option String := none
  pid : Nat := 0
  earlyExit : Option (Option String) := none
deriving Repr, DecidableEq

/-- Result of one `ensureTikaServer` call: the new supervisor state, the
returned error, and how many worker processes the call launched. -/
structure EnsureResult where
  st : SupState
  err : Option String
  spawned : Nat
deriving Repr, DecidableEq

/-- The launch path of `ensureTikaServer` (main.go lines 368-387): create a
fresh one-slot channel, `cmd.Start` (failure returned, nothing launched),
record the process handle, install the watcher, then wait up to 100 ms: an
exit status arriving within the window is consumed from the channel and
returned; otherwise the call optimistically reports success. -/
def startTika (st : SupState) (o : SpawnOutcome) : EnsureResult :=
  let st1 : SupState := { st with tikaCh := some none }
  match o.startErr with
  | some e => { st := st1, err := some e, spawned := 0 }
  | none =>
      let st2 : SupState := { st1 with tika := some o.pid }
      match o.earlyExit with
      | some e => { st := { st2 with tikaCh := some none }, err := e, spawned := 1 }
      | none => { st := st2, err := none, spawned := 1 }

/-- Embedding of `(config) ensureTikaServer` (main.go lines 356-388), the
body under `tikaMu`: if a channel exists and is empty (the tracked worker
has not signaled exit), return nil immediately; if it holds an exit status,
consume it, close the channel and relaunch; if no channel exists (first
call), launch. -/
def ensureTikaServer (st : SupState) (o : SpawnOutcome) : EnsureResult :=
  match st.tikaCh with
  | some none => { st := st, err := none, spawned := 0 }
  | some (some _e) => startTika st o
  | none => startTika st o

/-- One step of a serialized call sequence: run `ensureTikaServer` on the
current state and add the number of processes it launched. -/
def ensureStep (acc : SupState × Nat) (o : SpawnOutcome) : SupState × Nat :=
  let r := ensureTikaServer acc.1 o
  (r.st, acc.2 + r.spawned)

/-- A sequence of `ensureTikaServer` calls serialized under the supervisor
lock, returning the final state and the total number of worker processes
launched. -/
def ensureSeq (st : SupState) (os : List SpawnOutcome) : SupState × Nat :=
  os.foldl ensureStep (st, 0)

/-- Oracle for one `killTikaServer` call: whether `tika.Signal(SIGTERM)`
fails, whether the watcher reports exit within the 5 s timeout, and whether
the forced `tika.Kill` fails. -/
structure KillOutcome where
  signalErr : Option String := none
  exitedInTime : Bool := true
  killErr : Option String := none
deriving Repr, DecidableEq

/-- Result of one `killTikaServer` call. -/
structure KillResult where
  st : SupState
  err : Option String
deriving Repr, DecidableEq

/-- The wait-or-force-kill tail of `killTikaServer` (main.go lines 406-413):
either the watcher reports exit within 5 s, or `tika.Kill()` is attempted
and its failure is only logged.  Both paths fall through to `return nil`. -/
def killWait (st : SupState) (o : KillOutcome) : KillResult :=
  if o.exitedInTime then { st := st, err := none }
  else
    match o.killErr with
    | some _e => { st := st, err := none }
    | none => { st := st, err := none }

/-- Embedding of `(config) killTikaServer` (main.go lines 390-414), the body
under `tikaMu`: nil when no process is tracked; otherwise detach the handle,
send SIGTERM (a failure is only logged), wait bounded, force-kill on
timeout (a failure is only logged), and return nil. -/
def killTikaServer (st : SupState) (o : KillOutcome) : KillResult :=
  match st.tika with
  | none => { st := st, err := none }
  | some _pid =>
      let st1 : SupState := { st with tika := none }
      match o.signalErr with
      | some _e => killWait st1 o
      | none => killWait st1 o

/-- One uploaded file of a multipart form: its field name and content. -/
structure MultipartFile where
  fieldName : String := ""
  content : List Char := []
deriving Repr, DecidableEq

/-- Model of one inbound `/add` request as seen by `addHandler`.
`contentType` is `r.Header.Get("Content-Type")` verbatim; `queryId` is
`r.URL.Query().Get("id")`; `formId` is `r.Form.Get("id")` after a successful
`r.ParseForm()` (`parseFormErr` is its failure); `hasMultipartFiles` is
`r.MultipartForm != nil && r.MultipartForm.File != nil`; `files` lists the
file fields in the iteration order of the `r.MultipartForm.File` map;
`formFileErr` is a failure of `r.FormFile`; `bodyRemaining` is the content
that `r.Body` still yields at the moment `c.analyze(r.Body)` reads it (for a
request whose body was already consumed by form parsing this is empty). -/
structure Request where
  contentType : String := ""
  queryId : String := ""
  formId : String := ""
  parseFormErr : Option String := none
  hasMultipartFiles : Bool := false
  files : List MultipartFile := []
  formFileErr : Option String := none
  bodyRemaining : List Char := []
deriving Repr, DecidableEq

/-- Observable outcome of one `addHandler` call: the HTTP status written,
how many worker processes were launched, the value of the `id` variable at
the emptiness check (`none` when the handler aborted earlier), the bytes the
call to `analyze` received from `r.Body` (`none` when `analyze` was never
called), the content the `bdy` variable pointed to at that moment, and the
id under which a document was indexed (`none` when nothing was indexed). -/
structure HandlerResult where
  status : Nat
  spawned : Nat
  idUsed : Option String
  analyzedDoc : Option (List Char)
  bdySelected : Option (List Char)
  indexedId : Option String
deriving Repr, DecidableEq

/-- The branch condition of main.go line 141: the Content-Type header
compared for exact string equality against the two literals. -/
def multipartCT (ct : String) : Bool :=
  ct == "multipart/form-data" || ct == "application/x-www-form-encoded"

/-- The tail of `addHandler` from the `id == ""` check (main.go lines
164-182): 400 on an empty id; otherwise call `c.analyze(r.Body)` — note the
argument is `r.Body`, not the `bdy` variable — then `c.store`, answering 500
on either failure and 201 on success.  `bdy` is the stream the `bdy`
variable holds at this point and `body` is what `r.Body` yields. -/
def finishAdd (er : EnsureResult) (id : String) (bdy body : List Char)
    (w : WorkerBehavior) (storeErr : Option String) : HandlerResult × SupState :=
  if id = "" then
    ({ status := 400, spawned := er.spawned, idUsed := some id,
       analyzedDoc := none, bdySelected := none, indexedId := none }, er.st)
  else
    let ar := analyze body w
    match ar.err with
    | some _e =>
        ({ status := 500, spawned := er.spawned, idUsed := some id,
           analyzedDoc := some body, bdySelected := some bdy,
           indexedId := none }, er.st)
    | none =>
        match storeErr with
        | some _e =>
            ({ status := 500, spawned := er.spawned, idUsed := some id,
               analyzedDoc := some body, bdySelected := some bdy,
               indexedId := none }, er.st)
        | none =>
            ({ status := 201, spawned := er.spawned, idUsed := some id,
               analyzedDoc := some body, bdySelected := some bdy,
               indexedId := some id }, er.st)

/-- Embedding of `(config) addHandler` (main.go lines 131-182).  First
`ensureTikaServer` (500 on failure).  If the Content-Type equals one of the
two form literals exactly: `ParseForm` (400 on failure), `id` from the form,
400 when no multipart file map is present ("no file given"), then the first
file field found is loaded into `bdy` (400 on a `FormFile` failure); the
loop body is skipped entirely when the file map is empty, leaving `bdy` as
`r.Body`.  Otherwise `id` comes from the URL query and `bdy` stays `r.Body`.
Either way the handler proceeds to the id check and `analyze(r.Body)`. -/
def addHandler (st : SupState) (so : SpawnOutcome) (req : Request)
    (w : WorkerBehavior) (storeErr : Option String) : HandlerResult × SupState :=
  let er := ensureTikaServer st so
  match er.err with
  | some _e =>
      ({ status := 500, spawned := er.spawned, idUsed := none,
         analyzedDoc := none, bdySelected := none, indexedId := none }, er.st)
  | none =>
      if multipartCT req.contentType then
        match req.parseFormErr with
        | some _e =>
            ({ status := 400, spawned := er.spawned, idUsed := none,
               analyzedDoc := none, bdySelected := none, indexedId := none },
             er.st)
        | none =>
            if req.hasMultipartFiles then
              match req.files with
              | [] =>
                  finishAdd er req.formId req.bodyRemaining req.bodyRemaining
                    w storeErr
              | f :: _ =>
                  match req.formFileErr with
                  | some _e =>
                      ({ status := 400, spawned := er.spawned, idUsed := none,
                         analyzedDoc := none, bdySelected := none,
                         indexedId := none }, er.st)
                  | none =>
                      finishAdd er req.formId f.content req.bodyRemaining
                        w storeErr
            else
              ({ status := 400, spawned := er.spawned, idUsed := none,
                 analyzedDoc := none, bdySelected := none, indexedId := none },
               er.st)
      else
        finishAdd er req.queryId req.bodyRemaining req.bodyRemaining w storeErr

/-- The id-missing condition of claim C4, covering both intake paths of the
handler: a multipart request whose form parses, carries a file map and an
empty `id` field (with `FormFile` succeeding when a file field exists), or a
non-form request with an empty `id` query parameter. -/
def idMissing (req : Request) : Prop :=
  if multipartCT req.contentType then
    req.parseFormErr = none ∧ req.hasMultipartFiles = true ∧ req.formId = "" ∧
      (req.files ≠ [] → req.formFileErr = none)
  else req.queryId = ""

instance (req : Request) : Decidable (idMissing req) := by
  unfold idMissing
  infer_instance

/-- A concrete multipart ingest request: field `id` set to `doc1`, one
uploaded file `file` with content `hello`, the raw request body already
consumed by the multipart parsing. -/
def reqMultipartHello : Request :=
  { contentType := "multipart/form-data", formId := "doc1",
    hasMultipartFiles := true,
    files := [{ fieldName := "file", content := "hello".data }] }

/-- A concrete non-form ingest request whose Content-Type carries a boundary
parameter, with the id in the query string and the document in the body. -/
def reqBoundary : Request :=
  { contentType := "multipart/form-data; boundary=abc", queryId := "k1",
    bodyRemaining := "doc".data }

/-- Claim C9: `killTikaServer` returns a nil error in every case — it is a
no-op returning nil when no worker is tracked, and even when the SIGTERM
signal fails or the forced kill after the timeout fails, the failure is only
logged and the function still returns nil. -/
theorem killTikaServer_always_nil :
    (∀ (st : SupState) (o : KillOutcome), (killTikaServer st o).err = none) ∧
    (∀ (ch : Option (Option (Option String))) (o : KillOutcome),
      killTikaServer { tikaCh := ch, tika := none } o =
        { st := { tikaCh := ch, tika := none }, err := none }) := by
  have hw : ∀ (st : SupState) (o : KillOutcome), (killWait st o).err = none := by
    intro st o
    unfold killWait
    split
    · rfl
    · split <;> rfl
  constructor
  · intro st o
    unfold killTikaServer
    split
    · rfl
    · split <;> exact hw _ _
  · intro ch o
    rfl

/-- Claim C1 (code bug): at both `resp.StatusCode >= http.StatusBadRequest`
checks, `analyze` returns the variable `err`, which is nil at those points,
so a non-success HTTP status from either worker endpoint aborts `analyze`
with a nil error rather than the hard error the spec requires.  Evaluated
here at the failing inputs: a 500 from /meta (the call aborts — no text
request is issued — yet the error is nil) and a 503 from /tika. -/
theorem analyze_httpstatus_nil_error :
    (analyze ("hello".data) { metaStatus := 500 }).err = none ∧
    (analyze ("hello".data) { metaStatus := 500 }).tikaSent = none ∧
    (analyze ("hello".data) { tikaStatus := 503 }).err = none := by
  refine ⟨rfl, rfl, rfl⟩

/-- Claim C5 (code bug): `addHandler` loads the first uploaded file into the
`bdy` variable but then calls `c.analyze(r.Body)`, so the document that is
analyzed and indexed is the (already consumed) raw request body, not the
file content.  Evaluated at a multipart request with id `doc1` and one file
containing `hello`: `analyze` receives the empty remainder of `r.Body`
while `bdy` held the file bytes. -/
theorem addHandler_streams_raw_body_not_file :
    (addHandler {} {} reqMultipartHello {} none).1.analyzedDoc = some [] ∧
    (addHandler {} {} reqMultipartHello {} none).1.bdySelected =
      some ("hello".data) ∧
    (addHandler {} {} reqMultipartHello {} none).1.indexedId = some "doc1" ∧
    (addHandler {} {} reqMultipartHello {} none).1.analyzedDoc ≠
      (addHandler {} {} reqMultipartHello {} none).1.bdySelected := by
  refine ⟨rfl, rfl, rfl, by decide⟩

/-- Counterexample to claim C4: a request with an empty id query parameter,
reaching a supervisor with no tracked worker, is answered with 400 and
nothing is indexed — but a worker process IS started, because `addHandler`
calls `ensureTikaServer` before validating the input. -/
theorem addHandler_missing_id_spawns_worker_cex :
    (addHandler {} {} {} {} none).1.status = 400 ∧
    (addHandler {} {} {} {} none).1.indexedId = none ∧
    (addHandler {} {} {} {} none).1.spawned = 1 := by
  refine ⟨rfl, rfl, rfl⟩

/-- Claim C6: when the underlying line scan succeeds, `readMeta` returns no
error regardless of content; a line without the `","` separator is skipped
(the remaining lines are still parsed, so the result equals parsing the
input without that line); the returned error is exactly the scanner's own
error. -/
theorem readMeta_scan_only_errors (p s : List (List Char)) (bad : List Char)
    (e : Option String) (h : lineKey bad = none) :
    (readMeta (p ++ bad :: s) none).2 = none ∧
    (readMeta (p ++ bad :: s) e).2 = e ∧
    readMeta (p ++ bad :: s) none = readMeta (p ++ s) none := by
  refine ⟨rfl, rfl, ?_⟩
  have hpl : ∀ m, processLine m bad = m := by
    intro m
    simp [processLine, h]
  simp [readMeta, List.foldl_append, hpl]

/-- Witness for claim C6 at a concrete input: a garbage line between two
valid lines is skipped and the parse still succeeds. -/
theorem readMeta_scan_only_errors_witness :
    (readMeta (["\"Author\",\"alice\"".data] ++ "garbage line".data ::
      ["\"title\",\"Hi\"".data]) none).2 = none ∧
    (readMeta (["\"Author\",\"alice\"".data] ++ "garbage line".data ::
      ["\"title\",\"Hi\"".data]) (some "boom")).2 = some "boom" ∧
    readMeta (["\"Author\",\"alice\"".data] ++ "garbage line".data ::
      ["\"title\",\"Hi\"".data]) none =
      readMeta (["\"Author\",\"alice\"".data] ++ ["\"title\",\"Hi\"".data]) none :=
  readMeta_scan_only_errors ["\"Author\",\"alice\"".data]
    ["\"title\",\"Hi\"".data] ("garbage line".data) (some "boom") (by decide)

/-- Helper: a line that does not set a parsable creation date leaves a zero
`Created` field at zero — every other branch of the key switch preserves
`Created`, and a failing `Creation-Date` parse writes the zero time. -/
theorem processLine_keeps_zero (m : Metadata) (l : List Char)
    (hm : m.Created = timeZero) (hl : setsCreatedTime l = false) :
    (processLine m l).Created = timeZero := by
  unfold processLine
  cases hk : lineKey l with
  | none => simpa using hm
  | some kv =>
      obtain ⟨k, v⟩ := kv
      by_cases h1 : k = "Content-Type"
      · simp [applyKV, h1, hm]
      · by_cases h2 : k = "Author"
        · simp [applyKV, h1, h2, hm]
        · by_cases h3 : k = "Creation-Date"
          · subst h3
            have hsome : (parseRFC3339 v).isSome = false := by
              simpa [setsCreatedTime, hk] using hl
            have hv : parseRFC3339 v = none := by
              cases hpv : parseRFC3339 v with
              | none => rfl
              | some t => rw [hpv] at hsome; simp at hsome
            simp [applyKV, h1, h2, hv]
          · by_cases h4 : k = "title"
            · simp [applyKV, h1, h2, h3, h4, hm]
            · simp [applyKV, h1, h2, h3, h4, hm]

/-- Helper: folding the scanner loop over lines none of which sets a
parsable creation date keeps a zero `Created` field at zero. -/
theorem foldl_keeps_zero (s : List (List Char)) :
    ∀ m : Metadata, m.Created = timeZero →
      (∀ l2 ∈ s, setsCreatedTime l2 = false) →
      (List.foldl processLine m s).Created = timeZero := by
  induction s with
  | nil =>
      intro m hm _
      simpa using hm
  | cons a t ih =>
      intro m hm hall
      rw [List.foldl_cons]
      exact ih _ (processLine_keeps_zero m a hm (hall a (List.mem_cons_self a t)))
        (fun l2 hl2 => hall l2 (List.mem_cons_of_mem a hl2))

/-- Claim C7: a `Creation-Date` line whose value the RFC3339 parser rejects
is non-fatal — the `Created` field is left at the zero time, parsing
continues over the remaining lines (none of which sets a parsable creation
date), and the overall parse returns no error. -/
theorem readMeta_bad_creation_date_nonfatal
    (p s : List (List Char)) (l : List Char) (v : String)
    (hk : lineKey l = some ("Creation-Date", v))
    (hv : parseRFC3339 v = none)
    (hs : ∀ l2 ∈ s, setsCreatedTime l2 = false) :
    (readMeta (p ++ l :: s) none).1.Created = timeZero ∧
    (readMeta (p ++ l :: s) none).2 = none := by
  refine ⟨?_, rfl⟩
  show (List.foldl processLine {} (p ++ l :: s)).Created = timeZero
  rw [List.foldl_append, List.foldl_cons]
  refine foldl_keeps_zero s _ ?_ hs
  simp [processLine, hk, applyKV, hv]

/-- Witness for claim C7 at the spec's own example: the line
`"Creation-Date","not-a-date"` followed by a Content-Type line leaves the
creation date unset and the parse succeeds. -/
theorem readMeta_bad_creation_date_nonfatal_witness :
    (readMeta ([] ++ "\"Creation-Date\",\"not-a-date\"".data ::
      ["\"Content-Type\",\"application/msword\"".data]) none).1.Created = timeZero ∧
    (readMeta ([] ++ "\"Creation-Date\",\"not-a-date\"".data ::
      ["\"Content-Type\",\"application/msword\"".data]) none).2 = none :=
  readMeta_bad_creation_date_nonfatal []
    ["\"Content-Type\",\"application/msword\"".data]
    ("\"Creation-Date\",\"not-a-date\"".data) "not-a-date"
    (by decide) (by decide) (by decide)

/-- Claim C2: when the metadata phase and the drain succeed, `analyze`
presents the identical full byte content to the worker twice — the body of
the text-phase request (the in-memory buffer, filled by the tee during the
metadata request and topped up by the drain) equals the entire byte sequence
of the caller's stream that the metadata-phase request forwarded, for every
split point of how much the metadata-phase transport consumed. -/
theorem analyze_buffers_identical_stream (input : List Char)
    (w : WorkerBehavior) (h1 : w.metaDoErr = none)
    (h2 : w.metaStatus < statusBadRequest) (h3 : w.drainErr = none) :
    (analyze input w).metaSent = input ∧
    (analyze input w).tikaSent = some input := by
  have hm : ¬ statusBadRequest ≤ w.metaStatus := by omega
  cases h5 : w.tikaDoErr with
  | some e => simp [analyze, h1, h3, hm, h5, List.take_append_drop]
  | none =>
      by_cases ht : statusBadRequest ≤ w.tikaStatus
      · simp [analyze, h1, h3, hm, h5, ht, List.take_append_drop]
      · cases h7 : w.tikaReadErr <;>
          simp [analyze, h1, h3, hm, h5, ht, h7, List.take_append_drop]

/-- Witness for claim C2: a five-byte stream of which the metadata-phase
transport consumed only two bytes is still forwarded whole to /tika. -/
theorem analyze_buffers_identical_stream_witness :
    (analyze ("hello".data) { metaConsumed := 2 }).metaSent = "hello".data ∧
    (analyze ("hello".data) { metaConsumed := 2 }).tikaSent =
      some ("hello".data) :=
  analyze_buffers_identical_stream ("hello".data) { metaConsumed := 2 }
    (by decide) (by decide) (by decide)

/-- Claim C8: the error result of `readMeta` is discarded by `analyze` —
when `readMeta` reports a non-nil error but the drain and the text phase
succeed, `analyze` still issues the text request and returns a nil error. -/
theorem analyze_discards_readMeta_error (input : List Char)
    (w : WorkerBehavior) (h1 : w.metaDoErr = none)
    (h2 : w.metaStatus < statusBadRequest)
    (h3 : (readMeta w.metaLines w.metaScanErr).2 ≠ none)
    (h4 : w.drainErr = none) (h5 : w.tikaDoErr = none)
    (h6 : w.tikaStatus < statusBadRequest) (h7 : w.tikaReadErr = none) :
    (analyze input w).err = none ∧ (analyze input w).tikaSent ≠ none := by
  have hm : ¬ statusBadRequest ≤ w.metaStatus := by omega
  have ht : ¬ statusBadRequest ≤ w.tikaStatus := by omega
  simp [analyze, h1, h4, h5, h7, hm, ht]

/-- Witness for claim C8: a scanner I/O failure inside `readMeta` does not
stop `analyze` from completing the text phase with a nil error. -/
theorem analyze_discards_readMeta_error_witness :
    (analyze ("hello".data) { metaScanErr := some "disk error" }).err = none ∧
    (analyze ("hello".data) { metaScanErr := some "disk error" }).tikaSent ≠
      none :=
  analyze_discards_readMeta_error ("hello".data)
    { metaScanErr := some "disk error" } (by decide) (by decide) (by decide)
    (by decide) (by decide) (by decide) (by decide)

/-- Helper: once the supervisor tracks a worker whose completion channel is
empty, any further serialized `ensureTikaServer` calls leave the state
unchanged and launch nothing. -/
theorem ensureSteps_no_spawn (os : List SpawnOutcome) :
    ∀ (st : SupState) (n : Nat), st.tikaCh = some none →
      List.foldl ensureStep (st, n) os = (st, n) := by
  induction os with
  | nil =>
      intro st n _
      rfl
  | cons a t ih =>
      intro st n h
      rw [List.foldl_cons]
      have hstep : ensureStep (st, n) a = (st, n) := by
        unfold ensureStep ensureTikaServer
        rw [h]
        rfl
      rw [hstep]
      exact ih st n h

/-- Claim C3: `ensureTikaServer` is idempotent — when a worker is tracked
and its completion channel is empty, the call returns success immediately
with the state unchanged and no process spawned; consequently any non-empty
sequence of calls serialized under the supervisor lock, starting from the
untracked state, with every launch succeeding and no exit signal arriving,
launches exactly one worker process. -/
theorem ensureTikaServer_idempotent_single_spawn :
    (∀ (st : SupState) (o : SpawnOutcome), st.tikaCh = some none →
      ensureTikaServer st o = { st := st, err := none, spawned := 0 }) ∧
    (∀ os : List SpawnOutcome, os ≠ [] →
      (∀ o ∈ os, o.startErr = none ∧ o.earlyExit = none) →
      (ensureSeq {} os).2 = 1) := by
  constructor
  · intro st o h
    unfold ensureTikaServer
    rw [h]
  · intro os hne hall
    match os, hne with
    | o :: rest, _ =>
        obtain ⟨hs, he⟩ := hall o (List.mem_cons_self o rest)
        have h1 : ensureStep ({}, 0) o =
            ({ tikaCh := some none, tika := some o.pid }, 1) := by
          unfold ensureStep ensureTikaServer startTika
          rw [hs, he]
          rfl
        unfold ensureSeq
        rw [List.foldl_cons, h1,
          ensureSteps_no_spawn rest { tikaCh := some none, tika := some o.pid }
            1 rfl]

/-- Witness for claim C3: a tracked worker with an empty channel is left
alone, and three serialized calls from the untracked state launch exactly
one process. -/
theorem ensureTikaServer_idempotent_single_spawn_witness :
    (ensureTikaServer { tikaCh := some none, tika := some 7 } {} =
      { st := { tikaCh := some none, tika := some 7 }, err := none,
        spawned := 0 }) ∧
    (ensureSeq {} [{}, {}, {}]).2 = 1 :=
  ⟨ensureTikaServer_idempotent_single_spawn.1
      { tikaCh := some none, tika := some 7 } {} rfl,
    ensureTikaServer_idempotent_single_spawn.2 [{}, {}, {}] (by decide)
      (by decide)⟩

/-- Claim C4 (amended): an ingest request whose id is missing — an empty id
query parameter, or an empty multipart id field — is rejected with 400 and
nothing is indexed; however, `ensureTikaServer` is invoked before the input
is validated, so a worker process may already have been started (see the
counterexample). -/
theorem addHandler_missing_id_rejected (st : SupState) (so : SpawnOutcome)
    (req : Request) (w : WorkerBehavior) (se : Option String)
    (he : (ensureTikaServer st so).err = none) (hid : idMissing req) :
    (addHandler st so req w se).1.status = 400 ∧
    (addHandler st so req w se).1.indexedId = none := by
  unfold idMissing at hid
  by_cases hct : multipartCT req.contentType
  · rw [if_pos hct] at hid
    obtain ⟨hpf, hmf, hfid, hff⟩ := hid
    cases hfs : req.files with
    | nil => simp [addHandler, he, hct, hpf, hmf, hfs, finishAdd, hfid]
    | cons f fs =>
        have hffe : req.formFileErr = none := hff (by rw [hfs]; simp)
        simp [addHandler, he, hct, hpf, hmf, hfs, hffe, finishAdd, hfid]
  · rw [if_neg hct] at hid
    simp [addHandler, he, hct, finishAdd, hid]

/-- Witness for claim C4 (amended) at a concrete input: a plain-body request
with no id query parameter is answered 400 and indexes nothing. -/
theorem addHandler_missing_id_rejected_witness :
    (addHandler {} {} { contentType := "text/plain" } {} none).1.status =
      400 ∧
    (addHandler {} {} { contentType := "text/plain" } {} none).1.indexedId =
      none :=
  addHandler_missing_id_rejected {} {} { contentType := "text/plain" } {}
    none (by decide) (by decide)

/-- Claim C10: the multipart branch is selected exactly when the
Content-Type header equals `multipart/form-data` or
`application/x-www-form-encoded` as a whole string; for every other value
(including one carrying a boundary parameter) the id is taken from the URL
query string and `analyze` receives the raw request body. -/
theorem addHandler_branch_exact_match :
    (∀ ct : String, multipartCT ct = true ↔
      ct = "multipart/form-data" ∨ ct = "application/x-www-form-encoded") ∧
    (∀ (st : SupState) (so : SpawnOutcome) (req : Request)
        (w : WorkerBehavior) (se : Option String),
      (ensureTikaServer st so).err = none →
      multipartCT req.contentType = false →
      (addHandler st so req w se).1.idUsed = some req.queryId ∧
      (addHandler st so req w se).1.analyzedDoc =
        (if req.queryId = "" then none else some req.bodyRemaining)) := by
  constructor
  · intro ct
    simp [multipartCT]
  · intro st so req w se he hct
    have hct2 : ¬ multipartCT req.contentType := by
      rw [hct]
      exact Bool.false_ne_true
    by_cases hq : req.queryId = ""
    · simp [addHandler, he, hct2, finishAdd, hq]
    · cases ha : (analyze req.bodyRemaining w).err with
      | some e => simp [addHandler, he, hct2, finishAdd, hq, ha]
      | none =>
          cases se with
          | some e2 => simp [addHandler, he, hct2, finishAdd, hq, ha]
          | none => simp [addHandler, he, hct2, finishAdd, hq, ha]

/-- Witness for claim C10: a Content-Type with a boundary parameter is not
an exact match, so the id comes from the query string and the raw body is
the analyzed document. -/
theorem addHandler_branch_exact_match_witness :
    (multipartCT "multipart/form-data; boundary=abc" = true ↔
      "multipart/form-data; boundary=abc" = "multipart/form-data" ∨
      "multipart/form-data; boundary=abc" =
        "application/x-www-form-encoded") ∧
    ((addHandler {} {} reqBoundary {} none).1.idUsed =
        some reqBoundary.queryId ∧
      (addHandler {} {} reqBoundary {} none).1.analyzedDoc =
        (if reqBoundary.queryId = "" then none
         else some reqBoundary.bodyRemaining)) :=
  ⟨addHandler_branch_exact_match.1 "multipart/form-data; boundary=abc",
    addHandler_branch_exact_match.2 {} {} reqBoundary {} none (by decide)
      (by decide)⟩

end BleveIndexer
